import Mathlib

/-!
Verification of the native backend shell of the yue-editor note-taking
application (src/src-tauri/src/lib.rs), shallowly embedded in Lean 4.

The embedding models:
* the filesystem as an association list from path strings to file
  contents (`FS`), with read / existence-check / write / copy operations
  mirroring `std::fs` as used by the source;
* fallible I/O primitives (`std::fs::copy`, `std::fs::write`) by an
  explicit outcome oracle (`CopyOutcome` / `WriteOutcome`): the success
  case performs the operation, the failure case carries the underlying
  error message and the (possibly partial) data left at the destination;
* the clock (`chrono::Utc::now()`) as an explicit `Instant` argument;
  the `format("%Y%m%d_%H%M%S")` call as a zero-padded fixed-width
  rendering of the second-precision fields (the sub-second field of an
  instant is not rendered, exactly as in the source format string);
* the application-handle capability (`app.path().app_data_dir()`) as an
  `Except` value inside `AppEnv`;
* command errors by the inductive `CmdError`, one constructor per
  distinct `format!` error site of the source (`parseError` =
  "解析笔记数据失败", `notFoundError` = "备份文件不存在"/"数据库文件不存在",
  `copyError` = "备份当前数据库失败"/"恢复数据库失败"/"备份数据库失败",
  `exportError` = "导出失败", `pathError` = "无法获取应用数据目录");
* JSON values (`serde_json::Value`) by the inductive `JValue`, with
  `jIndex` mirroring `Value::index` with a string key and `asStr`
  mirroring `Value::as_str`;
* the main window by a record of visibility / focus / minimized flags,
  the best-effort window calls (`show`, `hide`, `set_focus`,
  `unminimize`, each with its error discarded) by oracle-guarded state
  updates, and the call order by an explicit trace of `WinCall`s.
-/

/-! ## Filesystem model -/

/-- A filesystem: an association list from path strings to file contents. -/
def FS : Type := List (String × String)

/-- Read a file's contents, `none` when the path does not exist. -/
def fsRead : FS → String → Option String
  | [], _ => none
  | (k, v) :: rest, p => if k = p then some v else fsRead rest p

/-- `Path::exists` / `PathBuf::exists`. -/
def fsExists (fs : FS) (p : String) : Bool :=
  (fsRead fs p).isSome

/-- Remove every entry at path `p` (helper for `fsWrite`). -/
def fsRemove : FS → String → FS
  | [], _ => []
  | (k, v) :: rest, p => if k = p then fsRemove rest p else (k, v) :: fsRemove rest p

/-- Create-or-overwrite a file at path `p` with contents `c`. -/
def fsWrite (fs : FS) (p c : String) : FS :=
  (p, c) :: fsRemove fs p

/-- `PathBuf::join`, with the separator fixed to "/". -/
def pathJoin (dir file : String) : String :=
  dir ++ "/" ++ file

/-- Outcome oracle for one `std::fs::copy` call: either the copy
succeeds, or it fails with an I/O error message, leaving at the
destination either nothing new (`leftover = none`) or partial data
(`leftover = some s`). -/
inductive CopyOutcome where
  | ok
  | fail (msg : String) (leftover : Option String)

/-- `std::fs::copy src dst`, driven by an outcome oracle. Reads the
source and overwrites the destination with its contents on success; on
failure the destination holds whatever the oracle says was left there. -/
def fsCopy (outcome : CopyOutcome) (src dst : String) (fs : FS) :
    Except String Unit × FS :=
  match fsRead fs src with
  | none => (Except.error "源文件不可读", fs)
  | some contents =>
    match outcome with
    | CopyOutcome.ok => (Except.ok (), fsWrite fs dst contents)
    | CopyOutcome.fail msg leftover =>
      (Except.error msg,
       match leftover with
       | none => fs
       | some s => fsWrite fs dst s)

/-- Outcome oracle for one `std::fs::write` call. -/
inductive WriteOutcome where
  | ok
  | fail (msg : String) (leftover : Option String)

/-- `std::fs::write path contents`, driven by an outcome oracle. -/
def fsWriteOp (outcome : WriteOutcome) (path contents : String) (fs : FS) :
    Except String Unit × FS :=
  match outcome with
  | WriteOutcome.ok => (Except.ok (), fsWrite fs path contents)
  | WriteOutcome.fail msg leftover =>
    (Except.error msg,
     match leftover with
     | none => fs
     | some s => fsWrite fs path s)

/-! ## Error taxonomy

One constructor per distinct `format!` error site in the source; the
carried string is the full message the Rust code builds at that site. -/

inductive CmdError where
  | parseError (msg : String)
  | notFoundError (msg : String)
  | copyError (msg : String)
  | exportError (msg : String)
  | pathError (msg : String)
deriving DecidableEq

/-! ## Clock and timestamp formatting -/

/-- A UTC instant as observed by `chrono::Utc::now()`. The `nanos`
field is the sub-second part; the format string `%Y%m%d_%H%M%S` used by
the source renders only the fields down to `second`. -/
structure Instant where
  year : Nat
  month : Nat
  day : Nat
  hour : Nat
  minute : Nat
  second : Nat
  nanos : Nat
deriving DecidableEq

/-- Two-digit zero-padded decimal rendering (chrono's `%m`, `%d`, `%H`,
`%M`, `%S` for in-range values). -/
def pad2 (n : Nat) : List Char :=
  [Nat.digitChar (n / 10 % 10), Nat.digitChar (n % 10)]

/-- Four-digit zero-padded decimal rendering (chrono's `%Y` for years
0–9999). -/
def pad4 (n : Nat) : List Char :=
  [Nat.digitChar (n / 1000 % 10), Nat.digitChar (n / 100 % 10),
   Nat.digitChar (n / 10 % 10), Nat.digitChar (n % 10)]

/-- The character list rendered by `now.format("%Y%m%d_%H%M%S")`. -/
def fmtChars (i : Instant) : List Char :=
  pad4 i.year ++ pad2 i.month ++ pad2 i.day ++
    ('_' :: (pad2 i.hour ++ pad2 i.minute ++ pad2 i.second))

/-- `now.format("%Y%m%d_%H%M%S").to_string()`. -/
def formatSecondPrec (i : Instant) : String :=
  String.mk (fmtChars i)

/-- `format!("notes_backup_{}.db", now.format("%Y%m%d_%H%M%S"))`. -/
def backupFileName (i : Instant) : String :=
  "notes_backup_" ++ formatSecondPrec i ++ ".db"

/-! ## Application environment -/

/-- The ambient capabilities a command reads from the Tauri app handle:
the result of `app.path().app_data_dir()` and the current clock value. -/
structure AppEnv where
  appDataDir : Except String String
  now : Instant

/-! ## backup_database and restore_database -/

/-- Embedding of the `backup_database` command. `copyOut` is the outcome
oracle for the single `fs::copy(&db_path, &file_path)` call. -/
def backup_database (env : AppEnv) (copyOut : CopyOutcome)
    (file_path : String) (fs : FS) : Except CmdError Unit × FS :=
  match env.appDataDir with
  | Except.error e =>
    (Except.error (CmdError.pathError ("无法获取应用数据目录: " ++ e)), fs)
  | Except.ok dir =>
    if fsExists fs (pathJoin dir "notes.db") = false then
      (Except.error (CmdError.notFoundError "数据库文件不存在"), fs)
    else
      match fsCopy copyOut (pathJoin dir "notes.db") file_path fs with
      | (Except.error e, fs1) =>
        (Except.error (CmdError.copyError ("备份数据库失败: " ++ e)), fs1)
      | (Except.ok _, fs1) => (Except.ok (), fs1)

/-- Embedding of the `restore_database` command. `safetyCopy` is the
outcome oracle for the safety-snapshot `fs::copy(&db_path, &backup_path)`
call, `mainCopy` for the final `fs::copy(&file_path, &db_path)` call. -/
def restore_database (env : AppEnv) (safetyCopy mainCopy : CopyOutcome)
    (file_path : String) (fs : FS) : Except CmdError Unit × FS :=
  if fsExists fs file_path = false then
    (Except.error (CmdError.notFoundError "备份文件不存在"), fs)
  else
    match env.appDataDir with
    | Except.error e =>
      (Except.error (CmdError.pathError ("无法获取应用数据目录: " ++ e)), fs)
    | Except.ok dir =>
      if fsExists fs (pathJoin dir "notes.db") then
        match fsCopy safetyCopy (pathJoin dir "notes.db")
            (pathJoin dir (backupFileName env.now)) fs with
        | (Except.error e, fs1) =>
          (Except.error (CmdError.copyError ("备份当前数据库失败: " ++ e)), fs1)
        | (Except.ok _, fs1) =>
          match fsCopy mainCopy file_path (pathJoin dir "notes.db") fs1 with
          | (Except.error e, fs2) =>
            (Except.error (CmdError.copyError ("恢复数据库失败: " ++ e)), fs2)
          | (Except.ok _, fs2) => (Except.ok (), fs2)
      else
        match fsCopy mainCopy file_path (pathJoin dir "notes.db") fs with
        | (Except.error e, fs2) =>
          (Except.error (CmdError.copyError ("恢复数据库失败: " ++ e)), fs2)
        | (Except.ok _, fs2) => (Except.ok (), fs2)

/-! ## JSON values and the all-notes markdown export -/

/-- `serde_json::Value`. Numbers are collapsed to `Int`: no code path of
the source inspects a numeric payload. -/
inductive JValue where
  | null
  | bool (b : Bool)
  | num (n : Int)
  | str (s : String)
  | arr (elems : List JValue)
  | obj (fields : List (String × JValue))

/-- `Value::index` with a `&str` key (`note["title"]`): on an object,
the value at the key or `Null` when absent; on every other variant,
`Null`. -/
def jIndex (v : JValue) (key : String) : JValue :=
  match v with
  | JValue.obj fields =>
    match fields.find? (fun kv => kv.1 = key) with
    | some kv => kv.2
    | none => JValue.null
  | _ => JValue.null

/-- `Value::as_str`. -/
def JValue.asStr : JValue → Option String
  | JValue.str s => some s
  | _ => none

/-- Is the value an object? -/
def JValue.isObj : JValue → Bool
  | JValue.obj _ => true
  | _ => false

/-- `note["title"].as_str().unwrap_or("无标题")`. -/
def titleOf (note : JValue) : String :=
  ((jIndex note "title").asStr).getD "无标题"

/-- `note["content"].as_str().unwrap_or("")`. -/
def contentOf (note : JValue) : String :=
  ((jIndex note "content").asStr).getD ""

/-- `note["created_at"].as_str().unwrap_or("")`. -/
def createdOf (note : JValue) : String :=
  ((jIndex note "created_at").asStr).getD ""

/-- The four `push_str` calls of one loop iteration of
`export_all_notes_to_markdown`, as one concatenation. -/
def noteSection (note : JValue) : String :=
  ("## " ++ titleOf note ++ "\n\n") ++
    ("*创建时间: " ++ createdOf note ++ "*\n\n") ++
    (contentOf note ++ "\n\n") ++
    "---\n\n"

/-- The whole markdown document built by `export_all_notes_to_markdown`:
the header `push_str`s followed by the per-note loop, embedded as a left
fold over the notes in input order. -/
def exportAllDoc (now : String) (notes : List JValue) : String :=
  notes.foldl (fun acc note => acc ++ noteSection note)
    ("# 笔记导出\n\n" ++ ("导出时间: " ++ now ++ "\n\n") ++ "---\n\n")

/-- Embedding of the `export_all_notes_to_markdown` command.
`parseNotes` stands for `serde_json::from_str::<Vec<Value>>`, which is
external library code: it returns the parsed top-level sequence, or the
parse error message for input that is not valid JSON or whose top level
is not a sequence. `now` is the already-formatted export timestamp and
`writeOut` the outcome oracle of the single `fs::write` call. -/
def export_all_notes_to_markdown
    (parseNotes : String → Except String (List JValue))
    (now : String) (writeOut : WriteOutcome)
    (notes_json file_path : String) (fs : FS) : Except CmdError Unit × FS :=
  match parseNotes notes_json with
  | Except.error e =>
    (Except.error (CmdError.parseError ("解析笔记数据失败: " ++ e)), fs)
  | Except.ok notes =>
    match fsWriteOp writeOut file_path (exportAllDoc now notes) fs with
    | (Except.error e, fs1) =>
      (Except.error (CmdError.exportError ("导出失败: " ++ e)), fs1)
    | (Except.ok _, fs1) => (Except.ok (), fs1)

/-! ## Window state, tray toggle, menu dispatch -/

/-- The observable state of the main window. -/
structure WindowState where
  visible : Bool
  focused : Bool
  minimized : Bool
deriving DecidableEq

/-- Success oracle for the fallible window-manager calls of one handler
invocation: `is_visible`, `show`, `set_focus`, `unminimize`, `hide`. -/
structure WinOracle where
  queryOk : Bool
  showOk : Bool
  focusOk : Bool
  unminOk : Bool
  hideOk : Bool
deriving DecidableEq

/-- A window-manager call attempted by a handler, recorded in order. -/
inductive WinCall where
  | queryVisible
  | showWin
  | focusWin
  | unminWin
  | hideWin
deriving DecidableEq

/-- `let _ = window.show();` — best-effort: on failure the state is
unchanged and the error is discarded. -/
def applyShow (ok : Bool) (w : WindowState) : WindowState :=
  if ok then { w with visible := true } else w

/-- `let _ = window.hide();` — best-effort. -/
def applyHide (ok : Bool) (w : WindowState) : WindowState :=
  if ok then { w with visible := false } else w

/-- `let _ = window.set_focus();` — best-effort. -/
def applyFocus (ok : Bool) (w : WindowState) : WindowState :=
  if ok then { w with focused := true } else w

/-- `let _ = window.unminimize();` — best-effort. -/
def applyUnmin (ok : Bool) (w : WindowState) : WindowState :=
  if ok then { w with minimized := false } else w

/-- The `on_tray_icon_event` click handler body, given the resolved main
window: `if app.is_visible().unwrap_or(false) { hide } else { show;
set_focus; unminimize }`. Returns the new state and the ordered trace of
attempted window calls. -/
def toggle_via_tray_click (o : WinOracle) (w : WindowState) :
    WindowState × List WinCall :=
  if (if o.queryOk then w.visible else false) then
    (applyHide o.hideOk w, [WinCall.queryVisible, WinCall.hideWin])
  else
    (applyUnmin o.unminOk (applyFocus o.focusOk (applyShow o.showOk w)),
     [WinCall.queryVisible, WinCall.showWin, WinCall.focusWin, WinCall.unminWin])

/-- The `show_main_window` command: looks up the main window (`none`
when absent — silent no-op) and performs show, set-focus, unminimize in
that order. -/
def show_main_window (o : WinOracle) (w : Option WindowState) :
    Option WindowState × List WinCall :=
  match w with
  | none => (none, [])
  | some ws =>
    (some (applyUnmin o.unminOk (applyFocus o.focusOk (applyShow o.showOk ws))),
     [WinCall.showWin, WinCall.focusWin, WinCall.unminWin])

/-- The `hide_main_window` command. -/
def hide_main_window (o : WinOracle) (w : Option WindowState) :
    Option WindowState × List WinCall :=
  match w with
  | none => (none, [])
  | some ws => (some (applyHide o.hideOk ws), [WinCall.hideWin])

/-- The `on_menu_event` closure: dispatch on the menu event id. The
source repeats the show / hide bodies inline, so they are repeated here
too; the second component is the exit code passed to `app.exit` when
the handler terminates the process, the third the trace of attempted
window calls. -/
def on_menu_event (o : WinOracle) (eventId : String) (w : Option WindowState) :
    Option WindowState × Option Nat × List WinCall :=
  if eventId = "show" then
    match w with
    | none => (none, none, [])
    | some ws =>
      (some (applyUnmin o.unminOk (applyFocus o.focusOk (applyShow o.showOk ws))),
       none,
       [WinCall.showWin, WinCall.focusWin, WinCall.unminWin])
  else if eventId = "hide" then
    match w with
    | none => (none, none, [])
    | some ws => (some (applyHide o.hideOk ws), none, [WinCall.hideWin])
  else if eventId = "quit" then
    (w, some 0, [])
  else
    (w, none, [])

/-- Oracle with every window call succeeding. -/
def allOk : WinOracle :=
  { queryOk := true, showOk := true, focusOk := true,
    unminOk := true, hideOk := true }

/-! ## Filesystem lemmas -/

theorem fsRead_fsRemove_ne (fs : FS) (p q : String) (h : q ≠ p) :
    fsRead (fsRemove fs p) q = fsRead fs q := by
  induction fs with
  | nil => rfl
  | cons kv rest ih =>
    obtain ⟨k, v⟩ := kv
    by_cases hk : k = p
    · subst hk
      have hkq : k ≠ q := fun hq => h hq.symm
      simp [fsRemove, fsRead, hkq, ih]
    · simp [fsRemove, fsRead, hk, ih]

theorem fsRead_fsWrite_self (fs : FS) (p c : String) :
    fsRead (fsWrite fs p c) p = some c := by
  simp [fsWrite, fsRead]

theorem fsRead_fsWrite_ne (fs : FS) (p c q : String) (h : q ≠ p) :
    fsRead (fsWrite fs p c) q = fsRead fs q := by
  have hpq : p ≠ q := fun hq => h hq.symm
  simp [fsWrite, fsRead, hpq, fsRead_fsRemove_ne fs p q h]

theorem fsExists_fsWrite_self (fs : FS) (p c : String) :
    fsExists (fsWrite fs p c) p = true := by
  simp [fsExists, fsRead_fsWrite_self]

theorem fsExists_fsWrite_ne (fs : FS) (p c q : String) (h : q ≠ p) :
    fsExists (fsWrite fs p c) q = fsExists fs q := by
  simp [fsExists, fsRead_fsWrite_ne fs p c q h]

/-! ## Timestamp-format lemmas -/

theorem digitChar_inj {a b : Nat} (ha : a < 10) (hb : b < 10)
    (h : Nat.digitChar a = Nat.digitChar b) : a = b := by
  have key : ∀ x y : Fin 10, Nat.digitChar x.val = Nat.digitChar y.val → x = y := by decide
  have := key ⟨a, ha⟩ ⟨b, hb⟩ h
  exact congrArg Fin.val this

theorem pad2_inj {a b : Nat} (ha : a < 100) (hb : b < 100)
    (h : pad2 a = pad2 b) : a = b := by
  simp only [pad2, List.cons.injEq, and_true] at h
  obtain ⟨h1, h2⟩ := h
  have d1 : a / 10 % 10 = b / 10 % 10 :=
    digitChar_inj (Nat.mod_lt _ (by omega)) (Nat.mod_lt _ (by omega)) h1
  have d2 : a % 10 = b % 10 :=
    digitChar_inj (Nat.mod_lt _ (by omega)) (Nat.mod_lt _ (by omega)) h2
  omega

theorem pad4_inj {a b : Nat} (ha : a < 10000) (hb : b < 10000)
    (h : pad4 a = pad4 b) : a = b := by
  simp only [pad4, List.cons.injEq, and_true] at h
  obtain ⟨h1, h2, h3, h4⟩ := h
  have d1 : a / 1000 % 10 = b / 1000 % 10 :=
    digitChar_inj (Nat.mod_lt _ (by omega)) (Nat.mod_lt _ (by omega)) h1
  have d2 : a / 100 % 10 = b / 100 % 10 :=
    digitChar_inj (Nat.mod_lt _ (by omega)) (Nat.mod_lt _ (by omega)) h2
  have d3 : a / 10 % 10 = b / 10 % 10 :=
    digitChar_inj (Nat.mod_lt _ (by omega)) (Nat.mod_lt _ (by omega)) h3
  have d4 : a % 10 = b % 10 :=
    digitChar_inj (Nat.mod_lt _ (by omega)) (Nat.mod_lt _ (by omega)) h4
  omega

theorem pad2_length (n : Nat) : (pad2 n).length = 2 := rfl

theorem pad4_length (n : Nat) : (pad4 n).length = 4 := rfl

theorem fmtChars_length (i : Instant) : (fmtChars i).length = 15 := by
  simp [fmtChars, pad2, pad4]

theorem fmtChars_inj {i1 i2 : Instant}
    (hy1 : i1.year < 10000) (hy2 : i2.year < 10000)
    (hmo1 : i1.month < 100) (hmo2 : i2.month < 100)
    (hd1 : i1.day < 100) (hd2 : i2.day < 100)
    (hh1 : i1.hour < 100) (hh2 : i2.hour < 100)
    (hmi1 : i1.minute < 100) (hmi2 : i2.minute < 100)
    (hs1 : i1.second < 100) (hs2 : i2.second < 100)
    (h : fmtChars i1 = fmtChars i2) :
    i1.year = i2.year ∧ i1.month = i2.month ∧ i1.day = i2.day ∧
    i1.hour = i2.hour ∧ i1.minute = i2.minute ∧ i1.second = i2.second := by
  unfold fmtChars at h
  simp only [List.append_assoc] at h
  obtain ⟨hy, h⟩ := List.append_inj h rfl
  obtain ⟨hmo, h⟩ := List.append_inj h rfl
  obtain ⟨hd, h⟩ := List.append_inj h rfl
  have h : pad2 i1.hour ++ (pad2 i1.minute ++ pad2 i1.second)
      = pad2 i2.hour ++ (pad2 i2.minute ++ pad2 i2.second) := by
    simpa using h
  obtain ⟨hh, h⟩ := List.append_inj h rfl
  obtain ⟨hmi, hs⟩ := List.append_inj h rfl
  exact ⟨pad4_inj hy1 hy2 hy, pad2_inj hmo1 hmo2 hmo, pad2_inj hd1 hd2 hd,
    pad2_inj hh1 hh2 hh, pad2_inj hmi1 hmi2 hmi, pad2_inj hs1 hs2 hs⟩

theorem backupFileName_length (i : Instant) : (backupFileName i).length = 31 := by
  have : (formatSecondPrec i).length = 15 := by
    show (fmtChars i).length = 15
    exact fmtChars_length i
  simp only [backupFileName, String.length_append, this]
  decide

theorem backupFileName_inj {i1 i2 : Instant}
    (hy1 : i1.year < 10000) (hy2 : i2.year < 10000)
    (hmo1 : i1.month < 100) (hmo2 : i2.month < 100)
    (hd1 : i1.day < 100) (hd2 : i2.day < 100)
    (hh1 : i1.hour < 100) (hh2 : i2.hour < 100)
    (hmi1 : i1.minute < 100) (hmi2 : i2.minute < 100)
    (hs1 : i1.second < 100) (hs2 : i2.second < 100)
    (h : backupFileName i1 = backupFileName i2) :
    i1.year = i2.year ∧ i1.month = i2.month ∧ i1.day = i2.day ∧
    i1.hour = i2.hour ∧ i1.minute = i2.minute ∧ i1.second = i2.second := by
  unfold backupFileName formatSecondPrec at h
  have hd := congrArg String.data h
  simp only [String.data_append, List.append_assoc] at hd
  obtain ⟨_, hd⟩ := List.append_inj hd rfl
  have hd : fmtChars i1 ++ (".db" : String).data
      = fmtChars i2 ++ (".db" : String).data := hd
  obtain ⟨hfmt, _⟩ := List.append_inj hd (by rw [fmtChars_length, fmtChars_length])
  exact fmtChars_inj hy1 hy2 hmo1 hmo2 hd1 hd2 hh1 hh2 hmi1 hmi2 hs1 hs2 hfmt

theorem dbPath_ne_backupPath (dir : String) (i : Instant) :
    pathJoin dir "notes.db" ≠ pathJoin dir (backupFileName i) := by
  intro h
  have hl := congrArg String.length h
  simp [pathJoin, String.length_append, backupFileName_length] at hl
  exact absurd hl (by decide)

/-! ## Concrete fixtures shared by witnesses and counterexamples -/

/-- A concrete instant: 2024-05-06 07:08:09.000000000 UTC. -/
def instA : Instant := ⟨2024, 5, 6, 7, 8, 9, 0⟩

/-- The same second as `instA`, half a second later:
2024-05-06 07:08:09.500000000 UTC. -/
def instB : Instant := ⟨2024, 5, 6, 7, 8, 9, 500000000⟩

/-- A filesystem with a primary database and a source backup file. -/
def fsDemo : FS := [("data/notes.db", "v1"), ("backup.db", "b1")]

/-! ## Claims about restore_database -/

/-- Claim C1: if the primary database file exists and the safety-copy
step fails, `restore_database` returns a `CopyError` and the restore is
aborted: the primary database file's contents are unchanged (the source
backup is never copied over it), and in fact no path other than the
snapshot destination is touched at all. -/
theorem restore_aborts_on_safety_copy_failure
    (dir : String) (i : Instant) (msg : String) (leftover : Option String)
    (mainCopy : CopyOutcome) (file_path : String) (fs : FS)
    (hsrc : fsExists fs file_path = true)
    (hdb : fsExists fs (pathJoin dir "notes.db") = true) :
    (restore_database ⟨Except.ok dir, i⟩ (CopyOutcome.fail msg leftover)
        mainCopy file_path fs).1
      = Except.error (CmdError.copyError ("备份当前数据库失败: " ++ msg)) ∧
    fsRead (restore_database ⟨Except.ok dir, i⟩ (CopyOutcome.fail msg leftover)
        mainCopy file_path fs).2 (pathJoin dir "notes.db")
      = fsRead fs (pathJoin dir "notes.db") ∧
    ∀ p, p ≠ pathJoin dir (backupFileName i) →
      fsRead (restore_database ⟨Except.ok dir, i⟩ (CopyOutcome.fail msg leftover)
          mainCopy file_path fs).2 p = fsRead fs p := by
  obtain ⟨dbc, hc⟩ := Option.isSome_iff_exists.mp hdb
  simp only [restore_database, hsrc, hdb, fsCopy, hc, Bool.true_eq_false,
    if_false, if_true, Bool.false_eq_true]
  refine ⟨trivial, ?_, ?_⟩
  · cases leftover with
    | none => exact hc
    | some s =>
      rw [fsRead_fsWrite_ne fs _ s _ (dbPath_ne_backupPath dir i)]
      exact hc
  · intro p hp
    cases leftover with
    | none => rfl
    | some s => exact fsRead_fsWrite_ne fs _ s p hp

theorem restore_aborts_on_safety_copy_failure_witness :
    (restore_database ⟨Except.ok "data", instA⟩ (CopyOutcome.fail "disk full" none)
        CopyOutcome.ok "backup.db" fsDemo).1
      = Except.error (CmdError.copyError ("备份当前数据库失败: " ++ "disk full")) :=
  (restore_aborts_on_safety_copy_failure "data" instA "disk full" none
    CopyOutcome.ok "backup.db" fsDemo (by decide) (by decide)).1

/-- Claim C2: when the primary database and the source backup both exist,
the snapshot name is fresh, and all copies succeed, `restore_database`
succeeds, the primary database's bytes equal the source backup's bytes,
the timestamped safety copy holds the old database bytes, and exactly one
new file (the snapshot) exists in the data directory afterwards. -/
theorem restore_success_snapshot_then_copy
    (dir : String) (i : Instant) (file_path : String) (fs : FS)
    (hsrc : fsExists fs file_path = true)
    (hdb : fsExists fs (pathJoin dir "notes.db") = true)
    (hfresh : fsExists fs (pathJoin dir (backupFileName i)) = false) :
    (restore_database ⟨Except.ok dir, i⟩ CopyOutcome.ok CopyOutcome.ok
        file_path fs).1 = Except.ok () ∧
    fsRead (restore_database ⟨Except.ok dir, i⟩ CopyOutcome.ok CopyOutcome.ok
        file_path fs).2 (pathJoin dir "notes.db")
      = fsRead fs file_path ∧
    fsRead (restore_database ⟨Except.ok dir, i⟩ CopyOutcome.ok CopyOutcome.ok
        file_path fs).2 (pathJoin dir (backupFileName i))
      = fsRead fs (pathJoin dir "notes.db") ∧
    fsExists (restore_database ⟨Except.ok dir, i⟩ CopyOutcome.ok CopyOutcome.ok
        file_path fs).2 (pathJoin dir (backupFileName i)) = true ∧
    ∀ p, p ≠ pathJoin dir (backupFileName i) →
      fsExists (restore_database ⟨Except.ok dir, i⟩ CopyOutcome.ok CopyOutcome.ok
          file_path fs).2 p = fsExists fs p := by
  obtain ⟨dbc, hc⟩ := Option.isSome_iff_exists.mp hdb
  obtain ⟨srcc, hs⟩ := Option.isSome_iff_exists.mp hsrc
  have hfp : file_path ≠ pathJoin dir (backupFileName i) := by
    intro h
    rw [h] at hsrc
    rw [hsrc] at hfresh
    exact absurd hfresh (by decide)
  have hread1 : fsRead (fsWrite fs (pathJoin dir (backupFileName i)) dbc) file_path
      = some srcc := by
    rw [fsRead_fsWrite_ne fs _ dbc file_path hfp]
    exact hs
  simp only [restore_database, hsrc, hdb, fsCopy, hc, hread1, Bool.true_eq_false,
    if_false, if_true, Bool.false_eq_true]
  refine ⟨trivial, ?_, ?_, ?_, ?_⟩
  · rw [fsRead_fsWrite_self]
    exact hs.symm
  · rw [fsRead_fsWrite_ne _ _ _ _ (Ne.symm (dbPath_ne_backupPath dir i)),
      fsRead_fsWrite_self]
  · rw [fsExists_fsWrite_ne _ _ _ _ (Ne.symm (dbPath_ne_backupPath dir i)),
      fsExists_fsWrite_self]
  · intro p hp
    by_cases hpd : p = pathJoin dir "notes.db"
    · subst hpd
      rw [fsExists_fsWrite_self, hdb]
    · rw [fsExists_fsWrite_ne _ _ _ p hpd, fsExists_fsWrite_ne _ _ _ p hp]

theorem restore_success_snapshot_then_copy_witness :
    (restore_database ⟨Except.ok "data", instA⟩ CopyOutcome.ok CopyOutcome.ok
        "backup.db" fsDemo).1 = Except.ok () ∧
    fsRead (restore_database ⟨Except.ok "data", instA⟩ CopyOutcome.ok CopyOutcome.ok
        "backup.db" fsDemo).2 (pathJoin "data" "notes.db")
      = fsRead fsDemo "backup.db" :=
  have h := restore_success_snapshot_then_copy "data" instA "backup.db" fsDemo
    (by decide) (by decide) (by decide)
  ⟨h.1, h.2.1⟩

/-- A concrete instant one full second after `instA`:
2024-05-06 07:08:10.000000000 UTC. -/
def instC : Instant := ⟨2024, 5, 6, 7, 8, 10, 0⟩

/-- Claim C3, counterexample: two successful restores in the same run at
distinct instants half a second apart produce safety snapshots with the
SAME filename — the second snapshot silently overwrites the first (its
contents change from the first database version to the second), so
snapshot filenames are not collision-free within a run. -/
theorem backup_name_collision_within_second :
    instA ≠ instB ∧
    backupFileName instA = backupFileName instB ∧
    fsRead (restore_database ⟨Except.ok "data", instA⟩ CopyOutcome.ok CopyOutcome.ok
        "backup.db" fsDemo).2 (pathJoin "data" (backupFileName instA))
      = some "v1" ∧
    fsRead (restore_database ⟨Except.ok "data", instB⟩ CopyOutcome.ok CopyOutcome.ok
        "backup.db"
        (restore_database ⟨Except.ok "data", instA⟩ CopyOutcome.ok CopyOutcome.ok
          "backup.db" fsDemo).2).2 (pathJoin "data" (backupFileName instA))
      = some "b1" := by
  refine ⟨by decide, rfl, ?_, ?_⟩ <;> decide

/-- Claim C3 (amended): the safety-snapshot filename embeds the current
UTC time only to second precision, so distinct filenames are guaranteed
only for snapshots whose creation instants differ in one of the
second-precision fields; two snapshots within the same second collide. -/
theorem backup_names_distinct_at_second_precision
    (i1 i2 : Instant)
    (hy1 : i1.year < 10000) (hy2 : i2.year < 10000)
    (hmo1 : i1.month < 100) (hmo2 : i2.month < 100)
    (hd1 : i1.day < 100) (hd2 : i2.day < 100)
    (hh1 : i1.hour < 100) (hh2 : i2.hour < 100)
    (hmi1 : i1.minute < 100) (hmi2 : i2.minute < 100)
    (hs1 : i1.second < 100) (hs2 : i2.second < 100)
    (hne : i1.year ≠ i2.year ∨ i1.month ≠ i2.month ∨ i1.day ≠ i2.day ∨
      i1.hour ≠ i2.hour ∨ i1.minute ≠ i2.minute ∨ i1.second ≠ i2.second) :
    backupFileName i1 ≠ backupFileName i2 := by
  intro h
  obtain ⟨ey, emo, ed, eh, emi, es⟩ :=
    backupFileName_inj hy1 hy2 hmo1 hmo2 hd1 hd2 hh1 hh2 hmi1 hmi2 hs1 hs2 h
  rcases hne with hx | hx | hx | hx | hx | hx
  · exact hx ey
  · exact hx emo
  · exact hx ed
  · exact hx eh
  · exact hx emi
  · exact hx es

theorem backup_names_distinct_at_second_precision_witness :
    backupFileName instA ≠ backupFileName instC :=
  backup_names_distinct_at_second_precision instA instC
    (by decide) (by decide) (by decide) (by decide) (by decide) (by decide)
    (by decide) (by decide) (by decide) (by decide) (by decide) (by decide)
    (by decide)

/-! ## Claims about the data-directory resolution error (C9) -/

/-- Claim C9, counterexample: in `restore_database` the source-existence
check runs BEFORE the data-directory resolution, so when the source file
is missing and directory resolution would fail, the call returns
`NotFoundError` — not the directory error the claim says is returned
before any existence check. -/
theorem restore_direrror_after_existence_check :
    (restore_database ⟨Except.error "权限不足", instA⟩ CopyOutcome.ok CopyOutcome.ok
        "missing.db" ([] : FS)).1
      = Except.error (CmdError.notFoundError "备份文件不存在") ∧
    CmdError.notFoundError "备份文件不存在"
      ≠ CmdError.pathError ("无法获取应用数据目录: " ++ "权限不足") :=
  ⟨rfl, by decide⟩

/-- Claim C9 (amended): when resolving the application data directory
fails, `backup_database` returns the directory error before its
existence check, while `restore_database` first checks that the source
backup exists (returning `NotFoundError` when it does not) and only then
returns the directory error; in either case the directory error is
neither a `NotFoundError` nor a `CopyError`, and the filesystem is
untouched (no copy is attempted). -/
theorem dir_resolution_error_taxonomy
    (e : String) (i : Instant) (co c1 c2 : CopyOutcome)
    (file_path : String) (fs : FS) :
    backup_database ⟨Except.error e, i⟩ co file_path fs
      = (Except.error (CmdError.pathError ("无法获取应用数据目录: " ++ e)), fs) ∧
    (fsExists fs file_path = true →
      restore_database ⟨Except.error e, i⟩ c1 c2 file_path fs
        = (Except.error (CmdError.pathError ("无法获取应用数据目录: " ++ e)), fs)) ∧
    (fsExists fs file_path = false →
      restore_database ⟨Except.error e, i⟩ c1 c2 file_path fs
        = (Except.error (CmdError.notFoundError "备份文件不存在"), fs)) ∧
    (∀ m1 m2 : String, CmdError.pathError m1 ≠ CmdError.notFoundError m2 ∧
      CmdError.pathError m1 ≠ CmdError.copyError m2) := by
  refine ⟨rfl, ?_, ?_, ?_⟩
  · intro h
    simp only [restore_database, h, Bool.true_eq_false, if_false]
  · intro h
    simp only [restore_database, h, if_true]
  · intro m1 m2
    exact ⟨fun h => CmdError.noConfusion h, fun h => CmdError.noConfusion h⟩

theorem dir_resolution_error_taxonomy_witness :
    restore_database ⟨Except.error "权限不足", instA⟩ CopyOutcome.ok CopyOutcome.ok
        "backup.db" fsDemo
      = (Except.error (CmdError.pathError ("无法获取应用数据目录: " ++ "权限不足")),
         fsDemo) :=
  (dir_resolution_error_taxonomy "权限不足" instA CopyOutcome.ok CopyOutcome.ok
    CopyOutcome.ok "backup.db" fsDemo).2.1 (by decide)

/-! ## Claims about the tray toggle (C4, C7) -/

/-- Claim C4, counterexample: starting from the Hidden window state and
with every window call succeeding, applying `toggle_via_tray_click`
twice leaves the window NOT visible (the first click shows it, the
second click finds it visible and hides it) — not the visible-and-focused
state the claim describes. -/
theorem toggle_twice_from_hidden_not_visible :
    (⟨false, false, false⟩ : WindowState).visible = false ∧
    ((toggle_via_tray_click allOk
        (toggle_via_tray_click allOk ⟨false, false, false⟩).1).1).visible = false := by
  decide

/-- Claim C4 (amended): starting from any Hidden window state, with all
window calls succeeding, one application of `toggle_via_tray_click`
yields the visible-and-focused (and unminimized) state, and a second
application returns the window to a hidden state — which need not be
bitwise-identical to the initial Hidden state (from the all-false state
the focus flag ends up set). -/
theorem toggle_twice_from_hidden_returns_hidden
    (w : WindowState) (h : w.visible = false) :
    (toggle_via_tray_click allOk w).1 = ⟨true, true, false⟩ ∧
    ((toggle_via_tray_click allOk (toggle_via_tray_click allOk w).1).1).visible
      = false ∧
    (toggle_via_tray_click allOk
        (toggle_via_tray_click allOk ⟨false, false, false⟩).1).1
      ≠ ⟨false, false, false⟩ := by
  obtain ⟨v, f, m⟩ := w
  cases v with
  | false => cases f <;> cases m <;> decide
  | true => exact Bool.noConfusion h

theorem toggle_twice_from_hidden_returns_hidden_witness :
    (toggle_via_tray_click allOk ⟨false, true, true⟩).1 = ⟨true, true, false⟩ :=
  (toggle_twice_from_hidden_returns_hidden ⟨false, true, true⟩ rfl).1

/-- Claim C7: in `toggle_via_tray_click` (all window calls succeeding,
the visibility query succeeding or not), a failed visibility query is
treated as "not visible": whenever the query succeeds and the window is
visible it is hidden, and whenever the window is not visible or the
query fails it is shown, focused and unminimized, in that order (the
trace lists the attempted calls in order). -/
theorem toggle_query_failure_treated_as_hidden
    (qOk : Bool) (w : WindowState) :
    (qOk = true → w.visible = true →
      toggle_via_tray_click ⟨qOk, true, true, true, true⟩ w
        = ({ w with visible := false },
           [WinCall.queryVisible, WinCall.hideWin])) ∧
    (qOk = false ∨ w.visible = false →
      toggle_via_tray_click ⟨qOk, true, true, true, true⟩ w
        = (⟨true, true, false⟩,
           [WinCall.queryVisible, WinCall.showWin, WinCall.focusWin,
            WinCall.unminWin])) := by
  obtain ⟨v, f, m⟩ := w
  cases qOk <;> cases v <;> cases f <;> cases m <;> decide

theorem toggle_query_failure_treated_as_hidden_witness :
    toggle_via_tray_click ⟨false, true, true, true, true⟩ ⟨true, true, false⟩
      = (⟨true, true, false⟩,
         [WinCall.queryVisible, WinCall.showWin, WinCall.focusWin,
          WinCall.unminWin]) :=
  (toggle_query_failure_treated_as_hidden false ⟨true, true, false⟩).2 (Or.inl rfl)

/-! ## Claim about the tray-menu dispatch (C8) -/

/-- Claim C8: the menu-event dispatch maps "show" to exactly the
show-main-window action (show, focus, unminimize, same state and same
call trace as the `show_main_window` command), "hide" to the
hide-main-window action, "quit" to immediate process termination with
exit code 0, and every other identifier to a no-op. -/
theorem menu_dispatch_mapping
    (o : WinOracle) (w : Option WindowState) (s : String) :
    on_menu_event o "show" w
      = ((show_main_window o w).1, none, (show_main_window o w).2) ∧
    on_menu_event o "hide" w
      = ((hide_main_window o w).1, none, (hide_main_window o w).2) ∧
    on_menu_event o "quit" w = (w, some 0, []) ∧
    (s ≠ "show" → s ≠ "hide" → s ≠ "quit" →
      on_menu_event o s w = (w, none, [])) := by
  refine ⟨?_, ?_, rfl, ?_⟩
  · cases w <;> rfl
  · cases w <;> rfl
  · intro h1 h2 h3
    simp only [on_menu_event, h1, h2, h3, if_false]

theorem menu_dispatch_mapping_witness :
    on_menu_event allOk "close" (some ⟨true, true, false⟩)
      = (some ⟨true, true, false⟩, none, []) :=
  (menu_dispatch_mapping allOk (some ⟨true, true, false⟩) "close").2.2.2
    (by decide) (by decide) (by decide)

/-! ## Claims about export_all_notes_to_markdown (C5, C6, C10) -/

/-- Concatenation of a list of strings in order. -/
def concatAll : List String → String
  | [] => ""
  | s :: rest => s ++ concatAll rest

theorem foldl_sections (notes : List JValue) (init : String) :
    notes.foldl (fun acc note => acc ++ noteSection note) init
      = init ++ concatAll (notes.map noteSection) := by
  induction notes generalizing init with
  | nil => exact (String.append_empty init).symm
  | cons a l ih =>
    show l.foldl (fun acc note => acc ++ noteSection note) (init ++ noteSection a)
      = init ++ (noteSection a ++ concatAll (l.map noteSection))
    rw [ih, String.append_assoc]

/-- The note record of §8.4 of the spec: title "A", content "x",
created_at "t1". -/
def noteA : JValue :=
  JValue.obj [("title", JValue.str "A"), ("content", JValue.str "x"),
    ("created_at", JValue.str "t1")]

/-- An entirely empty note record. -/
def noteEmpty : JValue := JValue.obj []

/-- A concrete stand-in for `serde_json::from_str::<Vec<Value>>` used by
witnesses: it accepts exactly one input string and rejects every other
(in particular "not json"). -/
def parseFixed : String → Except String (List JValue) :=
  fun s =>
    if s = "[twoNotes]" then Except.ok [noteA, noteEmpty]
    else Except.error "expected value"

/-- Claim C5: for every parsed sequence of notes, the export never fails
because of a missing or non-string title / content / created_at field:
with the write succeeding the command succeeds for EVERY list of note
values, the written document is the header followed by one H2 section
per note in input order, and each absent or non-string field degrades to
its fallback ("无标题" for title, "" for content and created_at). -/
theorem export_all_notes_field_fallbacks
    (parseNotes : String → Except String (List JValue))
    (now notes_json file_path : String) (fs : FS) (notes : List JValue)
    (hp : parseNotes notes_json = Except.ok notes) :
    (export_all_notes_to_markdown parseNotes now WriteOutcome.ok
        notes_json file_path fs).1 = Except.ok () ∧
    (export_all_notes_to_markdown parseNotes now WriteOutcome.ok
        notes_json file_path fs).2
      = fsWrite fs file_path (exportAllDoc now notes) ∧
    exportAllDoc now notes
      = ("# 笔记导出\n\n" ++ ("导出时间: " ++ now ++ "\n\n") ++ "---\n\n")
        ++ concatAll (notes.map noteSection) ∧
    (∀ n ∈ notes, noteSection n
      = ("## " ++ titleOf n ++ "\n\n") ++
          ("*创建时间: " ++ createdOf n ++ "*\n\n") ++
          (contentOf n ++ "\n\n") ++
          "---\n\n") ∧
    (∀ n : JValue, (jIndex n "title").asStr = none → titleOf n = "无标题") ∧
    (∀ n : JValue, (jIndex n "content").asStr = none → contentOf n = "") ∧
    (∀ n : JValue, (jIndex n "created_at").asStr = none → createdOf n = "") := by
  refine ⟨?_, ?_, ?_, ?_, ?_, ?_, ?_⟩
  · simp only [export_all_notes_to_markdown, hp, fsWriteOp]
  · simp only [export_all_notes_to_markdown, hp, fsWriteOp]
  · exact foldl_sections notes _
  · intro n _
    rfl
  · intro n h
    simp [titleOf, h]
  · intro n h
    simp [contentOf, h]
  · intro n h
    simp [createdOf, h]

theorem export_all_notes_field_fallbacks_witness :
    (export_all_notes_to_markdown parseFixed "2024-05-06 07:08:09 UTC"
        WriteOutcome.ok "[twoNotes]" "out.md" ([] : FS)).1 = Except.ok () ∧
    noteSection noteEmpty
      = ("## " ++ titleOf noteEmpty ++ "\n\n") ++
          ("*创建时间: " ++ createdOf noteEmpty ++ "*\n\n") ++
          (contentOf noteEmpty ++ "\n\n") ++
          "---\n\n" :=
  have h := export_all_notes_field_fallbacks parseFixed "2024-05-06 07:08:09 UTC"
    "[twoNotes]" "out.md" ([] : FS) [noteA, noteEmpty] rfl
  ⟨h.1, h.2.2.2.1 noteEmpty (by simp)⟩

/-- Claim C6: whenever parsing the input fails (not valid JSON, or the
top level is not a sequence), `export_all_notes_to_markdown` fails with
a `ParseError` and performs no file write: the filesystem is returned
unchanged. -/
theorem export_all_parse_error_no_write
    (parseNotes : String → Except String (List JValue))
    (now : String) (writeOut : WriteOutcome)
    (notes_json file_path : String) (fs : FS) (e : String)
    (hp : parseNotes notes_json = Except.error e) :
    export_all_notes_to_markdown parseNotes now writeOut notes_json file_path fs
      = (Except.error (CmdError.parseError ("解析笔记数据失败: " ++ e)), fs) := by
  simp only [export_all_notes_to_markdown, hp]

theorem export_all_parse_error_no_write_witness :
    export_all_notes_to_markdown parseFixed "t" WriteOutcome.ok
        "not json" "out.md" fsDemo
      = (Except.error (CmdError.parseError ("解析笔记数据失败: " ++ "expected value")),
         fsDemo) :=
  export_all_parse_error_no_write parseFixed "t" WriteOutcome.ok
    "not json" "out.md" fsDemo "expected value" rfl

/-- Claim C10: a top-level sequence element that is not an object does
not fail the export; indexing it with any of the three field names gives
`Null`, so the element renders as a section with all three fallbacks
(title "无标题", empty created_at, empty content). -/
theorem nonobject_note_renders_all_fallbacks
    (v : JValue) (h : v.isObj = false) :
    jIndex v "title" = JValue.null ∧
    jIndex v "content" = JValue.null ∧
    jIndex v "created_at" = JValue.null ∧
    noteSection v
      = ("## " ++ "无标题" ++ "\n\n") ++ ("*创建时间: " ++ "" ++ "*\n\n") ++
          ("" ++ "\n\n") ++ "---\n\n" := by
  cases v with
  | obj fields => exact Bool.noConfusion h
  | null => exact ⟨rfl, rfl, rfl, rfl⟩
  | bool b => exact ⟨rfl, rfl, rfl, rfl⟩
  | num n => exact ⟨rfl, rfl, rfl, rfl⟩
  | str s => exact ⟨rfl, rfl, rfl, rfl⟩
  | arr elems => exact ⟨rfl, rfl, rfl, rfl⟩

theorem nonobject_note_renders_all_fallbacks_witness :
    noteSection (JValue.num 5)
      = ("## " ++ "无标题" ++ "\n\n") ++ ("*创建时间: " ++ "" ++ "*\n\n") ++
          ("" ++ "\n\n") ++ "---\n\n" :=
  (nonobject_note_renders_all_fallbacks (JValue.num 5) rfl).2.2.2
